import Mathlib

/-!
# GoTyolo booking core — shallow embedding and verification

Shallow embedding of the seat-inventory counter, the booking state
machine, the payment-webhook reconciler, the cancellation route and the
expiry sweep of the GoTyolo repository
(`src/services/tripService.js`, `src/services/bookingService.js`,
`src/routes/trips.js`, `src/routes/bookings.js`, the webhook router and
the expiry job).

Conventions of the embedding:
* SQL `INTEGER` columns are `Int`; timestamps are `Int` milliseconds
  since the epoch (what a JS `Date` compares by).
* `NUMERIC(10,2)` money columns and JS number arithmetic on them are
  exact rationals (`Rat`); `Math.round(x*100)/100` is `jsRound2`.
* A row `RETURNING *` that may match nothing is `Option`.
* The database visible to one request is a `Db` holding the trips and
  bookings lists; a row id is its index in the list.  `ROLLBACK` is
  returning the input `Db` unchanged, `COMMIT` is returning the mutated
  one — each route handler is a function `Db → Db × Response`.  A
  storage failure inside a transaction (the `catch` arm of a route) is
  a Boolean oracle `storageFail`: when it fires the transaction rolls
  back in full and the handler returns its `catch` response.  The
  webhook has, in addition, two failure modes whose handling itself
  fails and which therefore send no HTTP response at all — a rejected
  `getClient()` before the `try`, and a `ROLLBACK` that throws inside
  the `catch` — modelled by `POST_payments_webhook_full`, whose
  response component is an `Option` (`none` = no response sent).
-/

/-- Trip status enum (`trip_status` in the migration). -/
inductive TripStatus
  | DRAFT
  | PUBLISHED
deriving DecidableEq, Repr

/-- Booking state enum (`booking_state` in the migration). -/
inductive BookingState
  | PENDING_PAYMENT
  | CONFIRMED
  | EXPIRED
  | CANCELLED
deriving DecidableEq, Repr

open TripStatus BookingState

/-- A row of `trips` (the columns the core logic reads). -/
structure Trip where
  max_capacity : Int
  available_seats : Int
  status : TripStatus
  start_date : Int
  price : Rat
  refundable_until_days_before : Int
  cancellation_fee_percent : Int
deriving DecidableEq, Repr

/-- A row of `bookings` (the columns the core logic reads). -/
structure Booking where
  trip_id : Nat
  user_id : Nat
  num_seats : Int
  state : BookingState
  price_at_booking : Rat
  idempotency_key : String
  expires_at : Int
  payment_reference : Option String
  cancelled_at : Option Int
  refund_amount : Option Rat
deriving DecidableEq, Repr

namespace TripService

/-- `TripService.decrementSeats`: `UPDATE trips SET available_seats =
available_seats - n WHERE id = .. AND available_seats >= n`; result is
the updated trip and `rowCount > 0`. -/
def decrementSeats (t : Trip) (numSeats : Int) : Trip × Bool :=
  if numSeats ≤ t.available_seats then
    ({ t with available_seats := t.available_seats - numSeats }, true)
  else
    (t, false)

/-- `TripService.incrementSeats`: `UPDATE trips SET available_seats =
LEAST(available_seats + n, max_capacity)`. -/
def incrementSeats (t : Trip) (numSeats : Int) : Trip :=
  { t with available_seats := min (t.available_seats + numSeats) t.max_capacity }

end TripService

namespace BookingService

/-- `BookingService.confirmBooking`: `UPDATE bookings SET state =
CONFIRMED, payment_reference = .. WHERE id = .. AND state =
PENDING_PAYMENT RETURNING *`; `none` when the guard matches no row. -/
def confirmBooking (b : Booking) (paymentReference : String) : Option Booking :=
  if b.state = PENDING_PAYMENT then
    some { b with state := CONFIRMED, payment_reference := some paymentReference }
  else none

/-- `BookingService.expireBooking`: `UPDATE bookings SET state = EXPIRED
WHERE id = .. AND state = PENDING_PAYMENT RETURNING *`. -/
def expireBooking (b : Booking) : Option Booking :=
  if b.state = PENDING_PAYMENT then some { b with state := EXPIRED } else none

/-- `BookingService.cancelBooking`: `UPDATE bookings SET state =
CANCELLED, cancelled_at = NOW(), refund_amount = .. WHERE id = .. AND
state IN (PENDING_PAYMENT, CONFIRMED) RETURNING *`. -/
def cancelBooking (b : Booking) (now : Int) (refundAmount : Rat) : Option Booking :=
  if b.state = PENDING_PAYMENT ∨ b.state = CONFIRMED then
    some { b with state := CANCELLED, cancelled_at := some now,
                  refund_amount := some refundAmount }
  else none

end BookingService

/-- The persistent store a request sees: the `trips` and `bookings`
tables, a row identified by its index. -/
structure Db where
  trips : List Trip
  bookings : List Booking
deriving DecidableEq, Repr

/-- `TripService.incrementSeats` applied through the store: `UPDATE
trips .. WHERE id = ..` touches no row when the id matches none. -/
def incrementTripSeats (db : Db) (tripId : Nat) (numSeats : Int) : Db :=
  match db.trips[tripId]? with
  | some t => { db with trips := db.trips.set tripId (TripService.incrementSeats t numSeats) }
  | none => db

/-- `24 * 60 * 60 * 1000`, the `msPerDay` constant of the cancel route. -/
def msPerDay : Int := 24 * 60 * 60 * 1000

/-- JS `Math.round` on the non-negative numbers the routes feed it:
round half away from zero, i.e. `⌊x + 1/2⌋`. -/
def mathRound (x : Rat) : Int := ⌊x + 1 / 2⌋

/-- `Math.round(x * 100) / 100` — round to 2 decimals. -/
def jsRound2 (x : Rat) : Rat := (mathRound (x * 100) : Rat) / 100

/-- JS `a || b` on an optional string `a`: a missing or empty string is
falsy and yields `b`. -/
def strOrElse (a : Option String) (b : String) : String :=
  match a with
  | some s => if s = "" then b else s
  | none => b

/-- The body of a `POST /payments/webhook` request.  `booking_id` is an
opaque row id, modelled by presence (`Option Nat`); the string fields
keep JS falsiness: absent or empty means missing. -/
structure WebhookReq where
  booking_id : Option Nat
  status : Option String
  idempotency_key : Option String
  payment_reference : Option String
deriving DecidableEq, Repr

/-- The JSON response of the webhook route: the HTTP status code and the
fields the handler sets on its `res.json` payload. -/
structure WebhookResp where
  statusCode : Nat
  received : Bool
  duplicate : Bool := false
  expired : Bool := false
  booking_state : Option BookingState := none
deriving DecidableEq, Repr

/-- The bare `res.status(200).json({ received: true })` acknowledgement. -/
def ackResp : WebhookResp := { statusCode := 200, received := true }

/-- The `POST /payments/webhook` handler on the paths where a response
is sent.  Mirrors the route: missing fields acknowledged; unknown
booking acknowledged; non-pending booking acknowledged as duplicate;
`expires_at < now` expires the booking and releases its seats whatever
the outcome; `success` confirms with `payment_reference ||
idempotency_key`; `failed` expires and releases; unknown status
acknowledged; `storageFail` is a failure inside the `try` whose `catch`
handling succeeds: rollback and acknowledge `200`.  The failure modes
that send no response are in `POST_payments_webhook_full` below. -/
def POST_payments_webhook (now : Int) (storageFail : Bool) (db : Db)
    (req : WebhookReq) : Db × WebhookResp :=
  match req.booking_id, req.status, req.idempotency_key with
  | some bookingId, some status, some idempotencyKey =>
    if status = "" ∨ idempotencyKey = "" then (db, ackResp)
    else if storageFail then (db, ackResp)
    else
      match db.bookings[bookingId]? with
      | none => (db, ackResp)
      | some booking =>
        if booking.state ≠ PENDING_PAYMENT then
          (db, { ackResp with duplicate := true })
        else if booking.expires_at < now then
          match BookingService.expireBooking booking with
          | some b =>
            (incrementTripSeats { db with bookings := db.bookings.set bookingId b }
                booking.trip_id booking.num_seats,
              { ackResp with expired := true })
          | none => (db, { ackResp with expired := true })
        else if status = "success" then
          (match BookingService.confirmBooking booking
              (strOrElse req.payment_reference idempotencyKey) with
            | some b => { db with bookings := db.bookings.set bookingId b }
            | none => db,
            { ackResp with booking_state := some CONFIRMED })
        else if status = "failed" then
          (incrementTripSeats
              (match BookingService.expireBooking booking with
                | some b => { db with bookings := db.bookings.set bookingId b }
                | none => db)
              booking.trip_id booking.num_seats,
            { ackResp with booking_state := some EXPIRED })
        else (db, ackResp)
  | _, _, _ => (db, ackResp)

/-- How the storage layer can fail during one webhook delivery. -/
inductive StorageFailure
  | noFailure
  | duringTransaction
  | getClientRejects
  | rollbackThrows
deriving DecidableEq, Repr

/-- The `POST /payments/webhook` handler with its full failure
behaviour.  The missing-fields check runs before `getClient()`, so it
acknowledges even when the pool is broken.  After it,
`const client = await getClient()` sits before the `try`: a rejected
acquisition escapes the handler and no response is sent
(`getClientRejects` yields `none`).  A failure inside the `try` is
caught, rolled back and acknowledged (`duringTransaction`) — unless the
`ROLLBACK` itself throws inside the `catch`, which also escapes with no
response (`rollbackThrows`).  With no failure the handler behaves as
`POST_payments_webhook`. -/
def POST_payments_webhook_full (now : Int) (fail : StorageFailure) (db : Db)
    (req : WebhookReq) : Db × Option WebhookResp :=
  match req.booking_id, req.status, req.idempotency_key with
  | some _, some status, some idempotencyKey =>
    if status = "" ∨ idempotencyKey = "" then (db, some ackResp)
    else
      match fail with
      | StorageFailure.noFailure =>
        ((POST_payments_webhook now false db req).1,
          some (POST_payments_webhook now false db req).2)
      | StorageFailure.duringTransaction => (db, some ackResp)
      | StorageFailure.getClientRejects => (db, none)
      | StorageFailure.rollbackThrows => (db, none)
  | _, _, _ => (db, some ackResp)

/-- Outcome of `POST /bookings/:bookingId/cancel`. -/
inductive CancelResult
  | notFound
  | alreadyTerminal (st : BookingState)
  | invalidState
  | cancelFailed
  | ok (refundAmount : Rat) (isRefundable : Bool) (daysUntilTrip : Int)
deriving DecidableEq, Repr

/-- The `POST /bookings/:bookingId/cancel` handler.  The booking is read
joined with its trip (`getByIdForUpdate`), so a dangling `trip_id` reads
as booking not found.  `daysUntilTrip = Math.floor((start − now) /
msPerDay)` is floor division; before the cutoff the refund is
`Math.round(price · (1 − fee/100) · 100) / 100` and the seats are
released, at or after the cutoff the refund is 0 and the seats stay. -/
def cancelRoute (now : Int) (db : Db) (bookingId : Nat) : Db × CancelResult :=
  match db.bookings[bookingId]? with
  | none => (db, CancelResult.notFound)
  | some booking =>
    match db.trips[booking.trip_id]? with
    | none => (db, CancelResult.notFound)
    | some trip =>
      if booking.state = CANCELLED ∨ booking.state = EXPIRED then
        (db, CancelResult.alreadyTerminal booking.state)
      else if booking.state ≠ PENDING_PAYMENT ∧ booking.state ≠ CONFIRMED then
        (db, CancelResult.invalidState)
      else
        let daysUntilTrip := Int.fdiv (trip.start_date - now) msPerDay
        let isBeforeCutoff := trip.refundable_until_days_before < daysUntilTrip
        let refundAmount : Rat :=
          if isBeforeCutoff then
            jsRound2 (booking.price_at_booking *
              (1 - (trip.cancellation_fee_percent : Rat) / 100))
          else 0
        match BookingService.cancelBooking booking now refundAmount with
        | none => (db, CancelResult.cancelFailed)
        | some cancelled =>
          let db1 : Db := { db with bookings := db.bookings.set bookingId cancelled }
          let db2 : Db :=
            if isBeforeCutoff then incrementTripSeats db1 booking.trip_id booking.num_seats
            else db1
          (db2, CancelResult.ok refundAmount isBeforeCutoff daysUntilTrip)

/-- Outcome of `POST /trips/:tripId/book`. -/
inductive BookResult
  | validationError
  | notFound
  | notPublished
  | insufficientSeats
  | conflict
  | created (b : Booking)
deriving DecidableEq, Repr

/-- The `POST /trips/:tripId/book` handler.  `freshKey` stands for the
`uuidv4()` idempotency key, `ttlMinutes` for `BOOKING_EXPIRY_MINUTES`
(default 15).  Validation rejects a missing `user_id` and `num_seats <
1`; then the trip must exist, be `PUBLISHED`, and have
`available_seats ≥ num_seats`; the seat decrement re-checks that bound
and then the booking row is inserted in `PENDING_PAYMENT`. -/
def bookRoute (now ttlMinutes : Int) (freshKey : String) (db : Db) (tripId : Nat)
    (userId : Option Nat) (numSeats : Int) : Db × BookResult :=
  match userId with
  | none => (db, BookResult.validationError)
  | some uid =>
    if numSeats < 1 then (db, BookResult.validationError)
    else
      match db.trips[tripId]? with
      | none => (db, BookResult.notFound)
      | some trip =>
        if trip.status ≠ PUBLISHED then (db, BookResult.notPublished)
        else if trip.available_seats < numSeats then (db, BookResult.insufficientSeats)
        else
          match TripService.decrementSeats trip numSeats with
          | (trip2, decremented) =>
            if decremented = false then (db, BookResult.conflict)
            else
              let booking : Booking :=
                { trip_id := tripId, user_id := uid, num_seats := numSeats,
                  state := PENDING_PAYMENT,
                  price_at_booking := trip.price * (numSeats : Rat),
                  idempotency_key := freshKey,
                  expires_at := now + ttlMinutes * 60 * 1000,
                  payment_reference := none, cancelled_at := none,
                  refund_amount := none }
              ({ trips := db.trips.set tripId trip2,
                 bookings := db.bookings ++ [booking] },
                BookResult.created booking)

/-- The `WHERE state = PENDING_PAYMENT AND expires_at < NOW()` filter of
`findExpiredPending`. -/
def isStalePending (now : Int) (b : Booking) : Bool :=
  b.state == PENDING_PAYMENT && decide (b.expires_at < now)

/-- `BookingService.findExpiredPending`: the row ids of all bookings in
`PENDING_PAYMENT` whose `expires_at` is strictly in the past. -/
def findExpiredPending (now : Int) (db : Db) : List Nat :=
  (List.range db.bookings.length).filter fun i =>
    match db.bookings[i]? with
    | some b => isStalePending now b
    | none => false

/-- One iteration of the expiry-job loop: re-lock the booking, skip
silently unless it is still `PENDING_PAYMENT`, otherwise expire it and
release its seats.  (`trip_id` and `num_seats` never change after
insert, so reading them from the re-locked row equals reading them from
the listed row.) -/
def sweepStep (now : Int) (db : Db) (i : Nat) : Db :=
  match db.bookings[i]? with
  | none => db
  | some locked =>
    if locked.state ≠ PENDING_PAYMENT then db
    else
      match BookingService.expireBooking locked with
      | some b =>
        incrementTripSeats { db with bookings := db.bookings.set i b }
          locked.trip_id locked.num_seats
      | none => db

/-- `expireStaleBookings` (the sweep, `sweepOnce` of the spec): list the
stale pending bookings, then process each in order.  The JS function
ends with `return;` when the list is empty and falls off the end
otherwise — either way its value is `undefined`, modelled as the
`Option Nat` component being `none` (it returns no count). -/
def expireStaleBookings (now : Int) (db : Db) : Db × Option Nat :=
  let expired := findExpiredPending now db
  if expired.isEmpty then (db, none)
  else (expired.foldl (sweepStep now) db, none)

/-- A fresh trip as `TripService.create` inserts it:
`available_seats` initialized to `max_capacity`. -/
def freshTrip (cap : Int) (status : TripStatus) (start : Int) (price : Rat)
    (cutoff fee : Int) : Trip :=
  { max_capacity := cap, available_seats := cap, status := status,
    start_date := start, price := price,
    refundable_until_days_before := cutoff, cancellation_fee_percent := fee }

/-- One inventory operation on the seat counter of a trip.  `num_seats`
is a `Nat` because every caller passes the `num_seats` of a booking,
which the schema constrains with `CHECK (num_seats > 0)` and the routes
validate with `num_seats < 1` rejection. -/
inductive SeatOp
  | reserve (n : Nat)
  | release (n : Nat)
deriving DecidableEq, Repr

/-- Apply one seat operation to a trip (reserve ignores its failure
flag: on failure the trip is returned unchanged). -/
def applySeatOp (t : Trip) : SeatOp → Trip
  | SeatOp.reserve n => (TripService.decrementSeats t n).1
  | SeatOp.release n => TripService.incrementSeats t n

/-- Run a sequence of seat operations left to right. -/
def runSeatOps (t : Trip) (ops : List SeatOp) : Trip :=
  ops.foldl applySeatOp t

/-- A concrete pending booking used by witnesses and counterexamples. -/
def sampleBooking : Booking :=
  { trip_id := 0, user_id := 1, num_seats := 2, state := PENDING_PAYMENT,
    price_at_booking := 200, idempotency_key := "k0", expires_at := 1000,
    payment_reference := none, cancelled_at := none, refund_amount := none }

/-- A concrete store with one published trip and one pending booking. -/
def sampleDb : Db :=
  { trips := [freshTrip 5 TripStatus.PUBLISHED 864000000 100 7 10],
    bookings := [sampleBooking] }

/-- A concrete booking already in the terminal state `EXPIRED`. -/
def expiredBooking : Booking := { sampleBooking with state := EXPIRED }

/-- A concrete store whose single booking is terminal. -/
def terminalDb : Db :=
  { trips := [freshTrip 5 TripStatus.PUBLISHED 864000000 100 7 10],
    bookings := [expiredBooking] }

/-- A confirmed booking worth 200, as in the refund example of the spec. -/
def confirmedBooking200 : Booking :=
  { sampleBooking with state := CONFIRMED, price_at_booking := 200 }

/-- Store for the refund example: cutoff 7 days, fee 10 %, trip starting
10 days from time 0. -/
def cancelDb10 : Db :=
  { trips := [freshTrip 5 TripStatus.PUBLISHED (10 * msPerDay) 100 7 10],
    bookings := [confirmedBooking200] }

/-- Same store with the trip starting 3 days from time 0. -/
def cancelDb3 : Db :=
  { trips := [freshTrip 5 TripStatus.PUBLISHED (3 * msPerDay) 100 7 10],
    bookings := [confirmedBooking200] }

/-- A concrete store whose single trip is still `DRAFT`. -/
def draftDb : Db :=
  { trips := [freshTrip 5 TripStatus.DRAFT 864000000 100 7 10], bookings := [] }

lemma applySeatOp_capacity (t : Trip) (op : SeatOp) :
    (applySeatOp t op).max_capacity = t.max_capacity := by
  cases op <;>
    simp [applySeatOp, TripService.decrementSeats, TripService.incrementSeats] <;>
    split <;> rfl

lemma applySeatOp_invariant (t : Trip) (op : SeatOp)
    (h0 : 0 ≤ t.available_seats) (h1 : t.available_seats ≤ t.max_capacity) :
    0 ≤ (applySeatOp t op).available_seats ∧
      (applySeatOp t op).available_seats ≤ (applySeatOp t op).max_capacity := by
  cases op with
  | reserve n =>
    simp only [applySeatOp, TripService.decrementSeats]
    split
    · exact ⟨by simp; omega, by simp; omega⟩
    · exact ⟨h0, h1⟩
  | release n =>
    simp only [applySeatOp, TripService.incrementSeats]
    constructor
    · exact le_min (by positivity) (le_trans h0 h1)
    · exact min_le_right _ _

lemma runSeatOps_invariant (ops : List SeatOp) (t : Trip)
    (h0 : 0 ≤ t.available_seats) (h1 : t.available_seats ≤ t.max_capacity) :
    0 ≤ (runSeatOps t ops).available_seats ∧
      (runSeatOps t ops).available_seats ≤ (runSeatOps t ops).max_capacity := by
  induction ops generalizing t with
  | nil => exact ⟨h0, h1⟩
  | cons op rest ih =>
    have h := applySeatOp_invariant t op h0 h1
    simpa [runSeatOps] using ih (applySeatOp t op) h.1 (by simpa using h.2)

/-- C1: starting from `available_seats = max_capacity`, any sequence of
reserve/release operations keeps `0 ≤ available_seats ≤ max_capacity`:
`decrementSeats` only subtracts when `available_seats ≥ n`, and
`incrementSeats` adds `n` but caps with `LEAST(·, max_capacity)`. -/
theorem seat_invariant_holds (cap : Int) (hcap : 0 ≤ cap)
    (status : TripStatus) (start : Int) (price : Rat) (cutoff fee : Int)
    (ops : List SeatOp) :
    0 ≤ (runSeatOps (freshTrip cap status start price cutoff fee) ops).available_seats ∧
      (runSeatOps (freshTrip cap status start price cutoff fee) ops).available_seats ≤
        (runSeatOps (freshTrip cap status start price cutoff fee) ops).max_capacity := by
  exact runSeatOps_invariant ops _ (by simpa [freshTrip] using hcap) (by simp [freshTrip])

/-- Witness for C1 at a concrete trip and operation list. -/
theorem seat_invariant_holds_witness :
    (0 : Int) ≤ 5 ∧
      (0 ≤ (runSeatOps (freshTrip 5 TripStatus.PUBLISHED 0 100 7 10)
              [SeatOp.reserve 3, SeatOp.release 4, SeatOp.reserve 1]).available_seats ∧
        (runSeatOps (freshTrip 5 TripStatus.PUBLISHED 0 100 7 10)
              [SeatOp.reserve 3, SeatOp.release 4, SeatOp.reserve 1]).available_seats ≤
          (runSeatOps (freshTrip 5 TripStatus.PUBLISHED 0 100 7 10)
              [SeatOp.reserve 3, SeatOp.release 4, SeatOp.reserve 1]).max_capacity) :=
  ⟨by decide,
    seat_invariant_holds 5 (by decide) TripStatus.PUBLISHED 0 100 7 10
      [SeatOp.reserve 3, SeatOp.release 4, SeatOp.reserve 1]⟩

/-- C2: for `n > 0`, `decrementSeats` succeeds and subtracts exactly `n`
when `available_seats ≥ n`, and otherwise fails leaving the counter
unchanged. -/
theorem reserve_exact_or_noop (t : Trip) (n : Int) (hn : 0 < n) :
    (t.available_seats ≥ n →
        (TripService.decrementSeats t n).2 = true ∧
          (TripService.decrementSeats t n).1.available_seats = t.available_seats - n) ∧
      (t.available_seats < n →
        (TripService.decrementSeats t n).2 = false ∧
          (TripService.decrementSeats t n).1 = t) := by
  constructor
  · intro hge
    simp [TripService.decrementSeats, hge]
  · intro hlt
    simp [TripService.decrementSeats, not_le.mpr hlt]

/-- Witness for C2 on a concrete trip with 5 seats, reserving 3. -/
theorem reserve_exact_or_noop_witness :
    (0 : Int) < 3 ∧
      (((freshTrip 5 TripStatus.PUBLISHED 0 100 7 10).available_seats ≥ 3 →
          (TripService.decrementSeats (freshTrip 5 TripStatus.PUBLISHED 0 100 7 10) 3).2 = true ∧
            (TripService.decrementSeats (freshTrip 5 TripStatus.PUBLISHED 0 100 7 10) 3).1.available_seats =
              (freshTrip 5 TripStatus.PUBLISHED 0 100 7 10).available_seats - 3) ∧
        ((freshTrip 5 TripStatus.PUBLISHED 0 100 7 10).available_seats < 3 →
          (TripService.decrementSeats (freshTrip 5 TripStatus.PUBLISHED 0 100 7 10) 3).2 = false ∧
            (TripService.decrementSeats (freshTrip 5 TripStatus.PUBLISHED 0 100 7 10) 3).1 =
              freshTrip 5 TripStatus.PUBLISHED 0 100 7 10)) :=
  ⟨by decide, reserve_exact_or_noop (freshTrip 5 TripStatus.PUBLISHED 0 100 7 10) 3 (by decide)⟩

lemma webhook_ack_aux (now : Int) (storageFail : Bool) (db : Db) (req : WebhookReq) :
    (POST_payments_webhook now storageFail db req).2.statusCode = 200 ∧
      (POST_payments_webhook now storageFail db req).2.received = true := by
  unfold POST_payments_webhook
  rcases req with ⟨bid, st, key, ref⟩
  rcases bid with _ | bid <;> rcases st with _ | st <;> rcases key with _ | key <;>
    simp only [] <;> (repeat' split) <;> simp [ackResp]

/-- Counterexample to C7 as stated: an internal storage failure can
surface as a delivery failure.  A rejected `getClient()` (which sits
before the `try`) and a throwing `ROLLBACK` (inside the `catch`) both
escape the handler, and no acknowledgement at all is sent for an
otherwise well-formed delivery. -/
theorem webhook_unacked_failure_cex :
    (POST_payments_webhook_full 500 StorageFailure.getClientRejects sampleDb
        { booking_id := some 0, status := some "success", idempotency_key := some "k1",
          payment_reference := none }).2 = none ∧
      (POST_payments_webhook_full 500 StorageFailure.rollbackThrows sampleDb
        { booking_id := some 0, status := some "success", idempotency_key := some "k1",
          payment_reference := none }).2 = none := by
  exact ⟨rfl, rfl⟩

/-- C7 (amended): every path through the handler body answers HTTP 200
with `received: true` — missing required fields (checked before the
client is acquired, so acknowledged even then), unknown booking,
duplicate, late expiry, success, failure, unknown status, and any
storage failure inside the `try` whose `catch` handling succeeds.  The
exceptions are the two failure modes whose handling itself fails — a
rejected `getClient()` before the `try` and a `ROLLBACK` that throws
inside the `catch` — which send no response, leaving the store
unchanged. -/
theorem webhook_ack_coverage (now : Int) (fail : StorageFailure) (db : Db)
    (req : WebhookReq) :
    ((fail = StorageFailure.noFailure ∨ fail = StorageFailure.duringTransaction) →
        ∃ r, (POST_payments_webhook_full now fail db req).2 = some r ∧
          r.statusCode = 200 ∧ r.received = true) ∧
      ((req.booking_id = none ∨ req.status = none ∨ req.idempotency_key = none) →
        (POST_payments_webhook_full now fail db req).2 = some ackResp) ∧
      ((fail = StorageFailure.getClientRejects ∨ fail = StorageFailure.rollbackThrows) →
        ∀ bid st key, req.booking_id = some bid → req.status = some st →
          req.idempotency_key = some key → st ≠ "" → key ≠ "" →
          (POST_payments_webhook_full now fail db req).2 = none ∧
            (POST_payments_webhook_full now fail db req).1 = db) := by
  refine ⟨?_, ?_, ?_⟩
  · intro h
    unfold POST_payments_webhook_full
    rcases req with ⟨bid, st, key, ref⟩
    rcases h with rfl | rfl <;>
      rcases bid with _ | bid <;> rcases st with _ | st <;> rcases key with _ | key <;>
        simp only [] <;> (repeat' split) <;>
          first
            | exact ⟨ackResp, rfl, rfl, rfl⟩
            | exact ⟨_, rfl, webhook_ack_aux now false db _⟩
  · intro hmiss
    unfold POST_payments_webhook_full
    rcases req with ⟨bid, st, key, ref⟩
    rcases bid with _ | bid <;> rcases st with _ | st <;> rcases key with _ | key <;>
      simp_all
  · rintro (rfl | rfl) bid st key hbid hst hkey hstne hkeyne <;>
      · rcases req with ⟨bid0, st0, key0, ref⟩
        simp only at hbid hst hkey
        subst hbid hst hkey
        unfold POST_payments_webhook_full
        simp [hstne, hkeyne]

/-- Witness for C7 (amended): a caught failure is acknowledged, an
uncaught client-acquisition failure sends nothing. -/
theorem webhook_ack_coverage_witness :
    (∃ r, (POST_payments_webhook_full 500 StorageFailure.duringTransaction sampleDb
          { booking_id := some 0, status := some "success", idempotency_key := some "k1",
            payment_reference := none }).2 = some r ∧
        r.statusCode = 200 ∧ r.received = true) ∧
      ((POST_payments_webhook_full 500 StorageFailure.getClientRejects sampleDb
          { booking_id := some 0, status := some "success", idempotency_key := some "k1",
            payment_reference := none }).2 = none ∧
        (POST_payments_webhook_full 500 StorageFailure.getClientRejects sampleDb
          { booking_id := some 0, status := some "success", idempotency_key := some "k1",
            payment_reference := none }).1 = sampleDb) :=
  ⟨(webhook_ack_coverage 500 StorageFailure.duringTransaction sampleDb
      { booking_id := some 0, status := some "success", idempotency_key := some "k1",
        payment_reference := none }).1 (Or.inr rfl),
    (webhook_ack_coverage 500 StorageFailure.getClientRejects sampleDb
      { booking_id := some 0, status := some "success", idempotency_key := some "k1",
        payment_reference := none }).2.2 (Or.inl rfl) 0 "success" "k1" rfl rfl rfl
      (by decide) (by decide)⟩

lemma webhook_noop_of_state_ne_pending (now : Int) (storageFail : Bool) (db : Db)
    (req : WebhookReq) (bid : Nat) (b : Booking) (hreq : req.booking_id = some bid)
    (hdb : db.bookings[bid]? = some b) (hstate : b.state ≠ PENDING_PAYMENT) :
    (POST_payments_webhook now storageFail db req).1 = db := by
  unfold POST_payments_webhook
  rcases req with ⟨bid0, st, key, ref⟩
  simp only at hreq
  subst hreq
  rcases st with _ | st <;> rcases key with _ | key <;>
    simp only [] <;> (repeat' split) <;> simp_all

/-- C6: redelivery after the booking is resolved (state no longer
`PENDING_PAYMENT`) performs no transition: the store is unchanged and
the delivery is still answered 200 `received: true`. -/
theorem webhook_duplicate_noop (now : Int) (storageFail : Bool) (db : Db)
    (req : WebhookReq) (bid : Nat) (b : Booking) (hreq : req.booking_id = some bid)
    (hdb : db.bookings[bid]? = some b) (hstate : b.state ≠ PENDING_PAYMENT) :
    (POST_payments_webhook now storageFail db req).1 = db ∧
      (POST_payments_webhook now storageFail db req).2.statusCode = 200 ∧
      (POST_payments_webhook now storageFail db req).2.received = true :=
  ⟨webhook_noop_of_state_ne_pending now storageFail db req bid b hreq hdb hstate,
    webhook_ack_aux now storageFail db req⟩

/-- Witness for C6: a second delivery for an already-expired booking. -/
theorem webhook_duplicate_noop_witness :
    ({ booking_id := some 0, status := some "success", idempotency_key := some "k1",
        payment_reference := none : WebhookReq }.booking_id = some 0) ∧
      terminalDb.bookings[0]? = some expiredBooking ∧
      expiredBooking.state ≠ PENDING_PAYMENT ∧
      ((POST_payments_webhook 2000 false terminalDb
          { booking_id := some 0, status := some "success", idempotency_key := some "k1",
            payment_reference := none }).1 = terminalDb ∧
        (POST_payments_webhook 2000 false terminalDb
          { booking_id := some 0, status := some "success", idempotency_key := some "k1",
            payment_reference := none }).2.statusCode = 200 ∧
        (POST_payments_webhook 2000 false terminalDb
          { booking_id := some 0, status := some "success", idempotency_key := some "k1",
            payment_reference := none }).2.received = true) :=
  ⟨rfl, by decide, by decide,
    webhook_duplicate_noop 2000 false terminalDb
      { booking_id := some 0, status := some "success", idempotency_key := some "k1",
        payment_reference := none } 0 expiredBooking rfl (by decide) (by decide)⟩

lemma incrementTripSeats_bookings (db : Db) (tripId : Nat) (n : Int) :
    (incrementTripSeats db tripId n).bookings = db.bookings := by
  unfold incrementTripSeats
  split <;> rfl

/-- Counterexample to C3 as stated: at `now = expires_at` exactly
(`now ≥ expires_at` but not `expires_at < now`), a `success` outcome on
a pending booking confirms it, it does not expire it. -/
theorem webhook_late_success_cex :
    sampleBooking.state = PENDING_PAYMENT ∧
      sampleBooking.expires_at ≤ 1000 ∧
      ((POST_payments_webhook 1000 false sampleDb
          { booking_id := some 0, status := some "success", idempotency_key := some "k1",
            payment_reference := none }).1.bookings[0]?).map Booking.state =
        some CONFIRMED := by
  refine ⟨rfl, by decide, ?_⟩
  decide

/-- C3 (amended): the webhook treats the booking as expired only when
`expires_at < now` STRICTLY: for a pending booking with
`expires_at < now` at processing time, the expire transition is applied
regardless of the outcome value — the booking becomes `EXPIRED` and its
`num_seats` are released back to the trip (capped at capacity) — so a
late `success` leaves the booking `EXPIRED`; at `now = expires_at`
exactly the booking is not yet expired and a `success` confirms. -/
theorem webhook_expiry_wins_strict (now : Int) (db : Db) (req : WebhookReq)
    (bid : Nat) (b : Booking) (st key : String)
    (hreq : req.booking_id = some bid) (hst : req.status = some st)
    (hkey : req.idempotency_key = some key) (hstne : st ≠ "") (hkeyne : key ≠ "")
    (hdb : db.bookings[bid]? = some b) (hpend : b.state = PENDING_PAYMENT)
    (hexp : b.expires_at < now) :
    ((POST_payments_webhook now false db req).1.bookings[bid]?).map Booking.state =
        some EXPIRED ∧
      (POST_payments_webhook now false db req).2.expired = true ∧
      (∀ t, db.trips[b.trip_id]? = some t →
        (POST_payments_webhook now false db req).1.trips =
          db.trips.set b.trip_id (TripService.incrementSeats t b.num_seats)) := by
  have hlen : bid < db.bookings.length := (List.getElem?_eq_some.mp hdb).1
  unfold POST_payments_webhook
  rcases req with ⟨bid0, st0, key0, ref⟩
  simp only at hreq hst hkey
  subst hreq hst hkey
  refine ⟨?_, ?_, ?_⟩
  · simp [hstne, hkeyne, hdb, hpend, hexp, BookingService.expireBooking,
      incrementTripSeats_bookings, List.getElem?_set_eq hlen]
  · simp [hstne, hkeyne, hdb, hpend, hexp, BookingService.expireBooking]
  · intro t ht
    simp [hstne, hkeyne, hdb, hpend, hexp, BookingService.expireBooking,
      incrementTripSeats, ht]

/-- Witness for C3 (amended) at a concrete late success delivery. -/
theorem webhook_expiry_wins_strict_witness :
    ({ booking_id := some 0, status := some "success", idempotency_key := some "k1",
        payment_reference := none : WebhookReq }.booking_id = some 0) ∧
      sampleDb.bookings[0]? = some sampleBooking ∧
      sampleBooking.state = PENDING_PAYMENT ∧
      sampleBooking.expires_at < 2000 ∧
      (((POST_payments_webhook 2000 false sampleDb
          { booking_id := some 0, status := some "success", idempotency_key := some "k1",
            payment_reference := none }).1.bookings[0]?).map Booking.state =
          some EXPIRED ∧
        (POST_payments_webhook 2000 false sampleDb
          { booking_id := some 0, status := some "success", idempotency_key := some "k1",
            payment_reference := none }).2.expired = true ∧
        (∀ t, sampleDb.trips[sampleBooking.trip_id]? = some t →
          (POST_payments_webhook 2000 false sampleDb
            { booking_id := some 0, status := some "success", idempotency_key := some "k1",
              payment_reference := none }).1.trips =
            sampleDb.trips.set sampleBooking.trip_id
              (TripService.incrementSeats t sampleBooking.num_seats))) :=
  ⟨rfl, by decide, rfl, by decide,
    webhook_expiry_wins_strict 2000 sampleDb
      { booking_id := some 0, status := some "success", idempotency_key := some "k1",
        payment_reference := none } 0 sampleBooking "success" "k1"
      rfl rfl rfl (by decide) (by decide) (by decide) rfl (by decide)⟩

lemma sweepStep_noop_of_state_ne_pending (now : Int) (db : Db) (i : Nat) (b : Booking)
    (hdb : db.bookings[i]? = some b) (hstate : b.state ≠ PENDING_PAYMENT) :
    sweepStep now db i = db := by
  unfold sweepStep
  simp [hdb, hstate]

lemma cancelRoute_noop_of_terminal (now : Int) (db : Db) (i : Nat) (b : Booking)
    (hdb : db.bookings[i]? = some b)
    (hterm : b.state = EXPIRED ∨ b.state = CANCELLED) :
    (cancelRoute now db i).1 = db := by
  unfold cancelRoute
  rcases hterm with h | h <;>
    simp only [hdb] <;> (repeat' split) <;> simp_all

/-- C5: `EXPIRED` and `CANCELLED` are terminal.  Every state-mutating
update is guarded to match no such row: `confirmBooking`,
`expireBooking` and `cancelBooking` all return `none` on a terminal
booking, and the webhook handler, the sweep step and the cancel route
all leave the store unchanged when the addressed booking is terminal. -/
theorem terminal_states_frozen (b : Booking)
    (hterm : b.state = EXPIRED ∨ b.state = CANCELLED)
    (ref : String) (now now2 : Int) (amt : Rat) (db : Db) (bid : Nat)
    (req : WebhookReq) (storageFail : Bool)
    (hdb : db.bookings[bid]? = some b) (hreq : req.booking_id = some bid) :
    BookingService.confirmBooking b ref = none ∧
      BookingService.expireBooking b = none ∧
      BookingService.cancelBooking b now amt = none ∧
      (POST_payments_webhook now2 storageFail db req).1 = db ∧
      sweepStep now2 db bid = db ∧
      (cancelRoute now db bid).1 = db := by
  have hne : b.state ≠ PENDING_PAYMENT := by rcases hterm with h | h <;> simp [h]
  refine ⟨?_, ?_, ?_, ?_, ?_, ?_⟩
  · simp [BookingService.confirmBooking, hne]
  · simp [BookingService.expireBooking, hne]
  · rcases hterm with h | h <;> simp [BookingService.cancelBooking, h]
  · exact webhook_noop_of_state_ne_pending now2 storageFail db req bid b hreq hdb hne
  · exact sweepStep_noop_of_state_ne_pending now2 db bid b hdb hne
  · exact cancelRoute_noop_of_terminal now db bid b hdb hterm

/-- Witness for C5 on a concrete expired booking. -/
theorem terminal_states_frozen_witness :
    (expiredBooking.state = EXPIRED ∨ expiredBooking.state = CANCELLED) ∧
      terminalDb.bookings[0]? = some expiredBooking ∧
      ({ booking_id := some 0, status := some "failed", idempotency_key := some "k2",
          payment_reference := none : WebhookReq }.booking_id = some 0) ∧
      (BookingService.confirmBooking expiredBooking "r" = none ∧
        BookingService.expireBooking expiredBooking = none ∧
        BookingService.cancelBooking expiredBooking 0 0 = none ∧
        (POST_payments_webhook 3000 false terminalDb
          { booking_id := some 0, status := some "failed", idempotency_key := some "k2",
            payment_reference := none }).1 = terminalDb ∧
        sweepStep 3000 terminalDb 0 = terminalDb ∧
        (cancelRoute 0 terminalDb 0).1 = terminalDb) :=
  ⟨Or.inl rfl, by decide, rfl,
    terminal_states_frozen expiredBooking (Or.inl rfl) "r" 0 3000 0 terminalDb 0
      { booking_id := some 0, status := some "failed", idempotency_key := some "k2",
        payment_reference := none } false (by decide) rfl⟩

/-- C10: the webhook never reads the stored `idempotency_key` of the
booking — the supplied key is only presence-checked (and used as a
fallback `payment_reference`).  Two deliveries differing only in their
non-empty key value produce the same trips table, the same booking
states and the same response; deduplication is by booking state alone. -/
theorem webhook_key_value_irrelevant (now : Int) (storageFail : Bool) (db : Db)
    (req : WebhookReq) (k1 k2 : String) (h1 : k1 ≠ "") (h2 : k2 ≠ "") :
    ((POST_payments_webhook now storageFail db
        { req with idempotency_key := some k1 }).1.trips =
      (POST_payments_webhook now storageFail db
        { req with idempotency_key := some k2 }).1.trips) ∧
    ((POST_payments_webhook now storageFail db
        { req with idempotency_key := some k1 }).1.bookings.map Booking.state =
      (POST_payments_webhook now storageFail db
        { req with idempotency_key := some k2 }).1.bookings.map Booking.state) ∧
    ((POST_payments_webhook now storageFail db
        { req with idempotency_key := some k1 }).2 =
      (POST_payments_webhook now storageFail db
        { req with idempotency_key := some k2 }).2) := by
  rcases req with ⟨bid, st, key, ref⟩
  unfold POST_payments_webhook
  rcases bid with _ | bid <;> rcases st with _ | st
  · exact ⟨rfl, rfl, rfl⟩
  · exact ⟨rfl, rfl, rfl⟩
  · exact ⟨rfl, rfl, rfl⟩
  · by_cases hst : st = ""
    · simp [hst]
    · by_cases hfail : storageFail
      · simp [hst, h1, h2, hfail]
      · cases hdb : db.bookings[bid]? with
        | none => simp [hst, h1, h2, hfail, hdb]
        | some b =>
          by_cases hpend : b.state = PENDING_PAYMENT
          · by_cases hexp : b.expires_at < now
            · simp [hst, h1, h2, hfail, hdb, hpend, hexp]
            · by_cases hsucc : st = "success"
              · simp [hst, h1, h2, hfail, hdb, hpend, hexp, hsucc,
                  BookingService.confirmBooking, List.map_set]
              · by_cases hfailed : st = "failed"
                · simp [hst, h1, h2, hfail, hdb, hpend, hexp, hsucc, hfailed]
                · simp [hst, h1, h2, hfail, hdb, hpend, hexp, hsucc, hfailed]
          · simp [hst, h1, h2, hfail, hdb, hpend]

/-- Witness for C10 with keys `"a"` and `"b"` on a success delivery. -/
theorem webhook_key_value_irrelevant_witness :
    ("a" : String) ≠ "" ∧ ("b" : String) ≠ "" ∧
      (((POST_payments_webhook 500 false sampleDb
          { booking_id := some 0, status := some "success", idempotency_key := some "a",
            payment_reference := none }).1.trips =
        (POST_payments_webhook 500 false sampleDb
          { booking_id := some 0, status := some "success", idempotency_key := some "b",
            payment_reference := none }).1.trips) ∧
      ((POST_payments_webhook 500 false sampleDb
          { booking_id := some 0, status := some "success", idempotency_key := some "a",
            payment_reference := none }).1.bookings.map Booking.state =
        (POST_payments_webhook 500 false sampleDb
          { booking_id := some 0, status := some "success", idempotency_key := some "b",
            payment_reference := none }).1.bookings.map Booking.state) ∧
      ((POST_payments_webhook 500 false sampleDb
          { booking_id := some 0, status := some "success", idempotency_key := some "a",
            payment_reference := none }).2 =
        (POST_payments_webhook 500 false sampleDb
          { booking_id := some 0, status := some "success", idempotency_key := some "b",
            payment_reference := none }).2)) :=
  ⟨by decide, by decide,
    webhook_key_value_irrelevant 500 false sampleDb
      { booking_id := some 0, status := some "success", idempotency_key := some "z",
        payment_reference := none } "a" "b" (by decide) (by decide)⟩

/-- C4: cancel on a `PENDING_PAYMENT` or `CONFIRMED` booking computes
`daysUntilTrip = ⌊(start_date − now) / msPerDay⌋`; strictly before the
cutoff it refunds `round2(price_at_booking · (1 − fee/100))` and
releases `num_seats` (capped at capacity), at or after the cutoff it
refunds 0 and leaves the seats untouched. -/
theorem cancel_refund_policy (now : Int) (db : Db) (bid : Nat) (b : Booking) (t : Trip)
    (hdb : db.bookings[bid]? = some b) (ht : db.trips[b.trip_id]? = some t)
    (hact : b.state = PENDING_PAYMENT ∨ b.state = CONFIRMED) :
    (t.refundable_until_days_before < Int.fdiv (t.start_date - now) msPerDay →
        (cancelRoute now db bid).2 =
          CancelResult.ok
            (jsRound2 (b.price_at_booking * (1 - (t.cancellation_fee_percent : Rat) / 100)))
            true (Int.fdiv (t.start_date - now) msPerDay) ∧
          (cancelRoute now db bid).1.trips =
            db.trips.set b.trip_id (TripService.incrementSeats t b.num_seats)) ∧
      (Int.fdiv (t.start_date - now) msPerDay ≤ t.refundable_until_days_before →
        (cancelRoute now db bid).2 =
          CancelResult.ok 0 false (Int.fdiv (t.start_date - now) msPerDay) ∧
          (cancelRoute now db bid).1.trips = db.trips) := by
  have hnc : ¬ (b.state = CANCELLED ∨ b.state = EXPIRED) := by
    rcases hact with h | h <;> simp [h]
  constructor
  · intro hcut
    unfold cancelRoute
    rcases hact with h | h <;>
      simp [hdb, ht, hnc, hcut, BookingService.cancelBooking, h, incrementTripSeats]
  · intro hcut
    unfold cancelRoute
    rcases hact with h | h <;>
      simp [hdb, ht, hnc, not_lt.mpr hcut, BookingService.cancelBooking, h]

/-- Witness for C4, covering both instances of the claim: price 200,
fee 10 %, cutoff 7 days — trip 10 days out refunds 180.00 with seats
released, trip 3 days out refunds 0 with seats unchanged. -/
theorem cancel_refund_policy_witness :
    cancelDb10.bookings[0]? = some confirmedBooking200 ∧
      cancelDb10.trips[confirmedBooking200.trip_id]? =
        some (freshTrip 5 TripStatus.PUBLISHED (10 * msPerDay) 100 7 10) ∧
      cancelDb3.bookings[0]? = some confirmedBooking200 ∧
      cancelDb3.trips[confirmedBooking200.trip_id]? =
        some (freshTrip 5 TripStatus.PUBLISHED (3 * msPerDay) 100 7 10) ∧
      ((freshTrip 5 TripStatus.PUBLISHED (10 * msPerDay) 100 7 10).refundable_until_days_before <
          Int.fdiv ((freshTrip 5 TripStatus.PUBLISHED (10 * msPerDay) 100 7 10).start_date - 0) msPerDay →
        (cancelRoute 0 cancelDb10 0).2 =
          CancelResult.ok
            (jsRound2 (confirmedBooking200.price_at_booking *
              (1 - ((freshTrip 5 TripStatus.PUBLISHED (10 * msPerDay) 100 7 10).cancellation_fee_percent : Rat) / 100)))
            true
            (Int.fdiv ((freshTrip 5 TripStatus.PUBLISHED (10 * msPerDay) 100 7 10).start_date - 0) msPerDay) ∧
          (cancelRoute 0 cancelDb10 0).1.trips =
            cancelDb10.trips.set confirmedBooking200.trip_id
              (TripService.incrementSeats
                (freshTrip 5 TripStatus.PUBLISHED (10 * msPerDay) 100 7 10)
                confirmedBooking200.num_seats)) ∧
      (Int.fdiv ((freshTrip 5 TripStatus.PUBLISHED (3 * msPerDay) 100 7 10).start_date - 0) msPerDay ≤
          (freshTrip 5 TripStatus.PUBLISHED (3 * msPerDay) 100 7 10).refundable_until_days_before →
        (cancelRoute 0 cancelDb3 0).2 =
          CancelResult.ok 0 false
            (Int.fdiv ((freshTrip 5 TripStatus.PUBLISHED (3 * msPerDay) 100 7 10).start_date - 0) msPerDay) ∧
          (cancelRoute 0 cancelDb3 0).1.trips = cancelDb3.trips) ∧
      (cancelRoute 0 cancelDb10 0).2 = CancelResult.ok 180 true 10 ∧
      (cancelRoute 0 cancelDb3 0).2 = CancelResult.ok 0 false 3 := by
  refine ⟨by decide, by decide, by decide, by decide,
    (cancel_refund_policy 0 cancelDb10 0 confirmedBooking200
        (freshTrip 5 TripStatus.PUBLISHED (10 * msPerDay) 100 7 10)
        (by decide) (by decide) (Or.inr rfl)).1,
    (cancel_refund_policy 0 cancelDb3 0 confirmedBooking200
        (freshTrip 5 TripStatus.PUBLISHED (3 * msPerDay) 100 7 10)
        (by decide) (by decide) (Or.inr rfl)).2, ?_, ?_⟩
  · have h := (cancel_refund_policy 0 cancelDb10 0 confirmedBooking200
        (freshTrip 5 TripStatus.PUBLISHED (10 * msPerDay) 100 7 10)
        (by decide) (by decide) (Or.inr rfl)).1 (by decide)
    rw [h.1]
    simp only [CancelResult.ok.injEq]
    exact ⟨by norm_num [jsRound2, mathRound, confirmedBooking200, sampleBooking, freshTrip],
      trivial, by decide⟩
  · have h := (cancel_refund_policy 0 cancelDb3 0 confirmedBooking200
        (freshTrip 5 TripStatus.PUBLISHED (3 * msPerDay) 100 7 10)
        (by decide) (by decide) (Or.inr rfl)).2 (by decide)
    rw [h.1]
    simp only [CancelResult.ok.injEq]
    exact ⟨trivial, trivial, by decide⟩

/-- C8: the error outcomes of booking creation — NOT_FOUND (trip
absent), NOT_PUBLISHED (`status ≠ PUBLISHED`), INSUFFICIENT_SEATS
(`available_seats < num_seats`) — mutate nothing: no booking row is
inserted and the seat counter is untouched; in particular booking a
`DRAFT` trip yields NOT_PUBLISHED with the store unchanged. -/
theorem create_errors_no_mutation (now ttl : Int) (key : String) (db : Db)
    (tripId : Nat) (userId : Option Nat) (numSeats : Int) :
    (((bookRoute now ttl key db tripId userId numSeats).2 = BookResult.notFound ∨
        (bookRoute now ttl key db tripId userId numSeats).2 = BookResult.notPublished ∨
        (bookRoute now ttl key db tripId userId numSeats).2 = BookResult.insufficientSeats) →
      (bookRoute now ttl key db tripId userId numSeats).1 = db) ∧
    (∀ t, db.trips[tripId]? = some t → t.status = DRAFT → userId ≠ none → 1 ≤ numSeats →
      (bookRoute now ttl key db tripId userId numSeats).2 = BookResult.notPublished ∧
        (bookRoute now ttl key db tripId userId numSeats).1 = db) := by
  constructor
  · unfold bookRoute
    rcases userId with _ | uid
    · intro _
      rfl
    · (repeat' split) <;> simp
  · intro t ht hdraft huid hn
    rcases userId with _ | uid
    · exact absurd rfl huid
    · unfold bookRoute
      simp [ht, hdraft, not_lt.mpr hn]

/-- Witness for C8: booking a concrete DRAFT trip is NOT_PUBLISHED and
leaves the store unchanged. -/
theorem create_errors_no_mutation_witness :
    (((bookRoute 0 15 "k9" draftDb 0 (some 1) 1).2 = BookResult.notFound ∨
        (bookRoute 0 15 "k9" draftDb 0 (some 1) 1).2 = BookResult.notPublished ∨
        (bookRoute 0 15 "k9" draftDb 0 (some 1) 1).2 = BookResult.insufficientSeats) →
      (bookRoute 0 15 "k9" draftDb 0 (some 1) 1).1 = draftDb) ∧
      draftDb.trips[0]? = some (freshTrip 5 TripStatus.DRAFT 864000000 100 7 10) ∧
      (freshTrip 5 TripStatus.DRAFT 864000000 100 7 10).status = DRAFT ∧
      ((bookRoute 0 15 "k9" draftDb 0 (some 1) 1).2 = BookResult.notPublished ∧
        (bookRoute 0 15 "k9" draftDb 0 (some 1) 1).1 = draftDb) :=
  ⟨(create_errors_no_mutation 0 15 "k9" draftDb 0 (some 1) 1).1,
    by decide, rfl,
    (create_errors_no_mutation 0 15 "k9" draftDb 0 (some 1) 1).2
      (freshTrip 5 TripStatus.DRAFT 864000000 100 7 10)
      (by decide) rfl (by decide) (by decide)⟩

lemma sweepStep_bookings_other (now : Int) (db : Db) (i j : Nat) (hij : j ≠ i) :
    (sweepStep now db j).bookings[i]? = db.bookings[i]? := by
  unfold sweepStep
  (repeat' split) <;>
    simp [incrementTripSeats_bookings, List.getElem?_set_ne hij]

lemma sweepStep_expires_self (now : Int) (db : Db) (i : Nat) (b : Booking)
    (hb : db.bookings[i]? = some b) (hp : b.state = PENDING_PAYMENT) :
    ((sweepStep now db i).bookings[i]?).map Booking.state = some EXPIRED := by
  have hlen : i < db.bookings.length := (List.getElem?_eq_some.mp hb).1
  unfold sweepStep
  simp [hb, hp, BookingService.expireBooking, incrementTripSeats_bookings,
    List.getElem?_set_eq hlen]

lemma sweepStep_keeps_expired (now : Int) (db : Db) (i j : Nat)
    (h : (db.bookings[i]?).map Booking.state = some EXPIRED) :
    ((sweepStep now db j).bookings[i]?).map Booking.state = some EXPIRED := by
  by_cases hij : j = i
  · subst hij
    cases hb : db.bookings[j]? with
    | none => simp [hb] at h
    | some b =>
      have hs : b.state = EXPIRED := by simpa [hb] using h
      rw [sweepStep_noop_of_state_ne_pending now db j b hb (by simp [hs])]
      exact h
  · rw [sweepStep_bookings_other now db i j hij]
    exact h

lemma foldl_sweep_keeps_expired (now : Int) (l : List Nat) (db : Db) (i : Nat)
    (h : (db.bookings[i]?).map Booking.state = some EXPIRED) :
    ((l.foldl (sweepStep now) db).bookings[i]?).map Booking.state = some EXPIRED := by
  induction l generalizing db with
  | nil => exact h
  | cons j rest ih => exact ih (sweepStep now db j) (sweepStep_keeps_expired now db i j h)

lemma foldl_sweep_expires (now : Int) (l : List Nat) (db : Db) (i : Nat) (b : Booking)
    (hi : i ∈ l) (hb : db.bookings[i]? = some b) (hp : b.state = PENDING_PAYMENT) :
    ((l.foldl (sweepStep now) db).bookings[i]?).map Booking.state = some EXPIRED := by
  induction l generalizing db b with
  | nil => cases hi
  | cons j rest ih =>
    by_cases hij : j = i
    · subst hij
      exact foldl_sweep_keeps_expired now rest (sweepStep now db j) j
        (sweepStep_expires_self now db j b hb hp)
    · have hb2 : (sweepStep now db j).bookings[i]? = some b := by
        rw [sweepStep_bookings_other now db i j hij]
        exact hb
      have hmem : i ∈ rest := by
        rcases List.mem_cons.mp hi with h | h
        · exact absurd h.symm hij
        · exact h
      exact ih (sweepStep now db j) b hmem hb2 hp

/-- Counterexample to C9 as stated: on a store with exactly one stale
pending booking the sweep expires it, but its return value is the JS
`undefined` (modelled `none`), not the number 1 of bookings expired. -/
theorem sweep_returns_no_count_cex :
    (expireStaleBookings 2000 sampleDb).1.bookings.map Booking.state = [EXPIRED] ∧
      (expireStaleBookings 2000 sampleDb).2 = none ∧
      (expireStaleBookings 2000 sampleDb).2 ≠ some 1 := by
  refine ⟨?_, rfl, by decide⟩
  decide

/-- C9 (amended): the sweep processes every booking with state
`PENDING_PAYMENT` and `expires_at < now` — each one is `EXPIRED`
afterwards — but it returns no count: the JS function returns
`undefined` on every path. -/
theorem sweep_expires_every_stale (now : Int) (db : Db) (i : Nat) (b : Booking)
    (hb : db.bookings[i]? = some b) (hp : b.state = PENDING_PAYMENT)
    (hs : b.expires_at < now) :
    (((expireStaleBookings now db).1.bookings[i]?).map Booking.state = some EXPIRED) ∧
      (expireStaleBookings now db).2 = none := by
  have hlen : i < db.bookings.length := (List.getElem?_eq_some.mp hb).1
  have hmem : i ∈ findExpiredPending now db := by
    unfold findExpiredPending
    refine List.mem_filter.mpr ⟨List.mem_range.mpr hlen, ?_⟩
    simp [hb, isStalePending, hp, hs]
  have hne : (findExpiredPending now db).isEmpty = false := by
    rcases hl : findExpiredPending now db with _ | ⟨x, xs⟩
    · rw [hl] at hmem
      cases hmem
    · rfl
  unfold expireStaleBookings
  simp only [hne, Bool.false_eq_true, if_false]
  exact ⟨foldl_sweep_expires now _ db i b hmem hb hp, trivial⟩

/-- Witness for C9 (amended) on the concrete one-booking store. -/
theorem sweep_expires_every_stale_witness :
    sampleDb.bookings[0]? = some sampleBooking ∧
      sampleBooking.state = PENDING_PAYMENT ∧
      sampleBooking.expires_at < 2000 ∧
      ((((expireStaleBookings 2000 sampleDb).1.bookings[0]?).map Booking.state =
          some EXPIRED) ∧
        (expireStaleBookings 2000 sampleDb).2 = none) :=
  ⟨by decide, rfl, by decide,
    sweep_expires_every_stale 2000 sampleDb 0 sampleBooking (by decide) rfl (by decide)⟩
